import Mathlib

/-
Verification of the tool-selection and invocation pipeline of the
demo-platform repository (src/app.py, src/server.py,
src/tools/tavily_search_tool.py).

Python values that flow through the pipeline (JSON payloads, LLM tool
selections, tool arguments, search results) are modelled by the inductive
type JValue.  External collaborators (the MCP transport, the OpenAI
completion service, the json.loads parser of the standard library, the
Tavily HTTP client) are not code of this repository; each is modelled as a
component of an environment record whose value describes that
collaborator's behaviour during one user turn.  Numbers are modelled as
integers; floating-point payloads are never computed on by the code under
verification, so the float default 0.0 of server.py is modelled as the
number 0.
-/

namespace McpDemo

/-- Model of a Python/JSON value as passed around by app.py and server.py. -/
inductive JValue where
  | null : JValue
  | bool : Bool → JValue
  | num : Int → JValue
  | str : String → JValue
  | arr : List JValue → JValue
  | obj : List (String × JValue) → JValue

/-- Dictionary lookup, modelling Python dict.get with no default (None). -/
def jget (fields : List (String × JValue)) (key : String) : Option JValue :=
  (fields.find? (fun p => p.1 = key)).map (fun p => p.2)

/-- Python truthiness of a value, as used by `if not tool_name` and
`if results.get("answer")`. -/
def truthy : JValue → Bool
  | .null => false
  | .bool b => b
  | .num n => n != 0
  | .str s => !s.isEmpty
  | .arr xs => !xs.isEmpty
  | .obj fs => !fs.isEmpty

/-- Short Python type name of a value, as in type(v).__name__. -/
def pyTypeShortName : JValue → String
  | .null => "NoneType"
  | .bool _ => "bool"
  | .num _ => "int"
  | .str _ => "str"
  | .arr _ => "list"
  | .obj _ => "dict"

/-- Rendering of type(v) inside an f-string, e.g. <class 'dict'>. -/
def pyTypeName (v : JValue) : String :=
  "<class \x27" ++ pyTypeShortName v ++ "\x27>"

/-- Message of the AttributeError raised when .get is called on a
non-dict value, e.g. 'list' object has no attribute 'get'. -/
def pyNoGetAttrMsg (v : JValue) : String :=
  "\x27" ++ pyTypeShortName v ++ "\x27 object has no attribute \x27get\x27"

/-- Escape one character for a JSON string literal, following json.dumps. -/
def jsonEscapeChar (c : Char) : String :=
  if c = '"' then "\\\""
  else if c = '\\' then "\\\\"
  else if c = '\n' then "\\n"
  else if c = '\t' then "\\t"
  else if c = '\r' then "\\r"
  else String.singleton c

/-- Quote a string as a JSON string literal. -/
def jsonQuote (s : String) : String :=
  "\"" ++ String.join (s.data.map jsonEscapeChar) ++ "\""

mutual

/-- Model of json.dumps with default separators. -/
def json_dumps : JValue → String
  | .null => "null"
  | .bool true => "true"
  | .bool false => "false"
  | .num n => toString n
  | .str s => jsonQuote s
  | .arr xs => "[" ++ json_dumps_list xs ++ "]"
  | .obj fs => "\x7b" ++ json_dumps_fields fs ++ "\x7d"

/-- Comma-separated serialization of the elements of a JSON array. -/
def json_dumps_list : List JValue → String
  | [] => ""
  | [x] => json_dumps x
  | x :: y :: xs => json_dumps x ++ ", " ++ json_dumps_list (y :: xs)

/-- Comma-separated serialization of the fields of a JSON object. -/
def json_dumps_fields : List (String × JValue) → String
  | [] => ""
  | [(k, v)] => jsonQuote k ++ ": " ++ json_dumps v
  | (k, v) :: f :: fs => jsonQuote k ++ ": " ++ json_dumps v ++ ", " ++ json_dumps_fields (f :: fs)

end

mutual

/-- Model of Python repr for the values above; strings use single quotes. -/
def pyRepr : JValue → String
  | .null => "None"
  | .bool true => "True"
  | .bool false => "False"
  | .num n => toString n
  | .str s => "\x27" ++ s ++ "\x27"
  | .arr xs => "[" ++ pyRepr_list xs ++ "]"
  | .obj fs => "\x7b" ++ pyRepr_fields fs ++ "\x7d"

/-- Comma-separated repr of list elements. -/
def pyRepr_list : List JValue → String
  | [] => ""
  | [x] => pyRepr x
  | x :: y :: xs => pyRepr x ++ ", " ++ pyRepr_list (y :: xs)

/-- Comma-separated repr of dict items. -/
def pyRepr_fields : List (String × JValue) → String
  | [] => ""
  | [(k, v)] => "\x27" ++ k ++ "\x27: " ++ pyRepr v
  | (k, v) :: f :: fs => "\x27" ++ k ++ "\x27: " ++ pyRepr v ++ ", " ++ pyRepr_fields (f :: fs)

end

/-- Model of Python str(v) as used in f-string interpolation. -/
def pyStr : JValue → String
  | .null => "None"
  | .bool true => "True"
  | .bool false => "False"
  | .num n => toString n
  | .str s => s
  | .arr xs => pyRepr (.arr xs)
  | .obj fs => pyRepr (.obj fs)

/-- Value of a Python attribute probe for the inputSchema attribute of a raw
tool object: the attribute can be absent, present with value None, or
present with a value. -/
inductive AttrVal where
  | absent : AttrVal
  | noneVal : AttrVal
  | val : JValue → AttrVal

/-- Value of the parameters attribute of a raw tool object: absent, a
Pydantic model class (whose model_json_schema result is recorded), or any
other value. -/
inductive ParamsVal where
  | absent : ParamsVal
  | pydanticClass : List (String × JValue) → ParamsVal
  | val : JValue → ParamsVal

/-- Raw tool record returned by mcp_client.list_tools, as probed by
list_mcp_tools_with_schema via hasattr and isinstance. -/
structure RawTool where
  name : String
  description : String
  inputSchema : AttrVal
  parameters : ParamsVal

/-- Normalized tool record appended to tools_data by
list_mcp_tools_with_schema. -/
structure ToolRecord where
  name : String
  description : String
  parameters_schema : JValue

/-- Schema extraction of app.py lines 61-83: start from the empty default;
if inputSchema is present and not None, use it when it is a dict (and keep
the default otherwise, without consulting parameters); else if parameters
is present, use its Pydantic schema or the dict itself; else keep the
default. -/
def extract_schema (t : RawTool) : JValue :=
  match t.inputSchema with
  | .val v =>
    match v with
    | .obj fs => .obj fs
    | _ => .obj []
  | _ =>
    match t.parameters with
    | .pydanticClass s => .obj s
    | .val v =>
      match v with
      | .obj fs => .obj fs
      | _ => .obj []
    | .absent => .obj []

/-- Model of list_mcp_tools_with_schema (app.py lines 42-98): the outcome of
the underlying list_tools transport call is the argument; any transport
error yields an empty catalog, otherwise every raw tool is normalized. -/
def list_mcp_tools_with_schema (listToolsOutcome : Except String (List RawTool)) :
    List ToolRecord :=
  match listToolsOutcome with
  | .error _ => []
  | .ok raw_tools =>
    raw_tools.map (fun t => ⟨t.name, t.description, extract_schema t⟩)

/-- Spec-worded schema extraction, for comparison with extract_schema: try
in order (1) the direct schema attribute if present and an object, (2) the
parameters attribute, extracting the schema of a schema-bearing structured
type or using an object directly, (3) the empty object. -/
def spec_extract_schema (t : RawTool) : JValue :=
  match t.inputSchema with
  | .val (.obj fs) => .obj fs
  | _ =>
    match t.parameters with
    | .pydanticClass s => .obj s
    | .val (.obj fs) => .obj fs
    | _ => .obj []

/-- Binary payload attached to a content item; only the rendering of
type(data) is ever used by app.py. -/
structure BinaryData where
  typeRepr : String

/-- One element of the list returned by mcp_client.call_tool, as probed by
app.py via hasattr: an optional text attribute, an optional data attribute,
an optional __dict__ attribute, and the str() rendering used when __dict__
is absent. -/
structure ContentItem where
  text : Option String
  data : Option BinaryData
  dict : Option (List (String × JValue))
  strRepr : String

/-- Best-effort object view of one content item, app.py line 183: the
__dict__ when the object has one, else str(res). -/
def item_view (it : ContentItem) : JValue :=
  match it.dict with
  | some fs => .obj fs
  | none => .str it.strRepr

/-- Result normalization of app.py lines 178-185: empty list yields the
sentinel; a first item with a text attribute yields that text; a first item
with a data attribute yields the binary placeholder; otherwise the JSON
serialization of the best-effort views of every item. -/
def normalize_tool_result (tool_result_list : List ContentItem) : String :=
  match tool_result_list with
  | [] => "Tool executed successfully but returned no content."
  | first :: _ =>
    match first.text with
    | some t => t
    | none =>
      match first.data with
      | some b => "[Binary data received, type: " ++ b.typeRepr ++ "]"
      | none => json_dumps (.arr (tool_result_list.map item_view))

/-- Model of ask_openai (app.py lines 24-39): the outcome of the OpenAI
chat-completion call is the argument; a successful completion is returned
as is, an exception is converted into an inline error string. -/
def ask_openai (outcome : Except String String) : String :=
  match outcome with
  | .ok content => content
  | .error e => "Error: Could not contact OpenAI - " ++ e

/-- Observable external actions of one turn of process_user_query. -/
inductive Event where
  | listToolsCall : Event
  | oracleSelect : Event
  | toolCall : JValue → JValue → Event
  | oracleGeneral : Event
  | oracleSummarize : Event

/-- Does an event record an invocation of mcp_client.call_tool? -/
def isToolCallEvent : Event → Bool
  | .toolCall _ _ => true
  | _ => false

/-- Does an event record the summarization (narration) oracle call? -/
def isSummarizeEvent : Event → Bool
  | .oracleSummarize => true
  | _ => false

/-- External world of one turn: the user query, the outcome of the
list_tools transport call, the outcome of the tool-selection OpenAI call,
the behaviour of json.loads on the selection text, the behaviour of
mcp_client.call_tool, and the outcomes of the general-answer and
summarization OpenAI calls as functions of their user prompts (their system
prompts are the fixed constants of app.py). -/
structure Env where
  user_query : String
  listTools : Except String (List RawTool)
  selectionOracle : Except String String
  parseSelection : String → Option JValue
  callTool : JValue → JValue → Except String (List ContentItem)
  generalOracle : String → Except String String
  summarizeOracle : String → Except String String

/-- The general-answer user prompt of app.py line 162. -/
def general_answer_prompt (user_query : String) : String :=
  "The user asked: \x27" ++ user_query ++ "\x27. No specific tool was chosen. Please provide a helpful general response."

/-- The summarization user prompt of app.py lines 194-202. -/
def user_prompt_summarize (user_query : String) (tool_name tool_arguments : JValue)
    (tool_output_for_llm : String) : String :=
  "\nThe user originally asked: \"" ++ user_query ++ "\"\nThe tool \"" ++
    pyStr tool_name ++ "\" was called with arguments " ++ json_dumps tool_arguments ++
    ".\nThe tool returned the following output:\n---\n" ++ tool_output_for_llm ++
    "\n---\nPlease provide a natural language response to the user based on this.\n    "

/-- Model of process_user_query (app.py lines 101-204), returning the final
answer string together with the trace of external actions taken. -/
def process_user_query (env : Env) : String × List Event :=
  let mcp_tools_list := list_mcp_tools_with_schema env.listTools
  if mcp_tools_list.isEmpty then
    ("Error: Could not retrieve tools from the MCP server.", [.listToolsCall])
  else
    let llm_tool_choice_str := ask_openai env.selectionOracle
    match env.parseSelection llm_tool_choice_str with
    | none =>
      ("Error: LLM did not provide a valid JSON response for tool selection. LLM response:\n" ++
        llm_tool_choice_str, [.listToolsCall, .oracleSelect])
    | some llm_tool_choice =>
      match llm_tool_choice with
      | .obj fields =>
        let tool_name := (jget fields "tool_name").getD .null
        let tool_arguments := (jget fields "arguments").getD (.obj [])
        if !truthy tool_name then
          ("(No specific tool was used by the LLM for your query)\nLLM: " ++
            ask_openai (env.generalOracle (general_answer_prompt env.user_query)),
           [.listToolsCall, .oracleSelect, .oracleGeneral])
        else
          match tool_arguments with
          | .obj args =>
            match env.callTool tool_name (.obj args) with
            | .error e =>
              ("Error executing tool \x27" ++ pyStr tool_name ++ "\x27 on MCP server: " ++ e,
               [.listToolsCall, .oracleSelect, .toolCall tool_name (.obj args)])
            | .ok tool_result_list =>
              let tool_output_for_llm := normalize_tool_result tool_result_list
              (ask_openai (env.summarizeOracle
                 (user_prompt_summarize env.user_query tool_name (.obj args) tool_output_for_llm)),
               [.listToolsCall, .oracleSelect, .toolCall tool_name (.obj args), .oracleSummarize])
          | _ =>
            ("Error: LLM provided arguments in an incorrect format for tool \x27" ++
              pyStr tool_name ++ "\x27. Expected a dictionary, got " ++
              pyTypeName tool_arguments ++ ".",
             [.listToolsCall, .oracleSelect])
      | other =>
        ("Error parsing LLM tool choice: " ++ pyNoGetAttrMsg other ++ ". LLM response:\n" ++
          llm_tool_choice_str, [.listToolsCall, .oracleSelect])

/-- Arguments of one invocation of TavilyClient.search recorded at the call
site in server.py line 53. -/
structure SearchCall where
  query : String
  max_results : Int
  search_depth : String

/-- Outcome of one TavilyClient.search call: a decoded JSON response, a
TavilySearchError, or any other exception. -/
inductive SearchOutcome where
  | ok : JValue → SearchOutcome
  | tavilyError : String → SearchOutcome
  | otherError : String → SearchOutcome

/-- External world of one tavily_search tool call: the TAVILY_API_KEY
environment variable and the behaviour of the Tavily HTTP client as a
function of the search call arguments. -/
structure ServerEnv where
  tavilyApiKey : Option String
  search : String → Int → String → SearchOutcome

/-- Clamp of server.py line 46: max_results = max(1, min(int(max_results), 20)). -/
def clamp_max_results (n : Int) : Int :=
  max 1 (min n 20)

/-- Defaulting of server.py lines 48-49: any search_depth other than basic
or advanced becomes basic. -/
def normalize_search_depth (d : String) : String :=
  if d = "basic" || d = "advanced" then d else "basic"

/-- Whitespace as stripped by Python str.strip. -/
def isSpaceChar (c : Char) : Bool :=
  c = ' ' || c = '\t' || c = '\n' || c = '\r'

/-- Truthiness test of query.strip(): is the query all whitespace? -/
def pyStripEmpty (s : String) : Bool :=
  (s.data.dropWhile isSpaceChar).isEmpty

/-- Single-error-object result of the except branches of tavily_search. -/
def errObj (msg : String) : JValue :=
  .obj [("error", .str msg)]

/-- Python iteration over the value of results.get("results", []): lists
iterate over elements, strings over one-character strings, dicts over keys,
other values raise TypeError. -/
def iter_results (v : JValue) : Except String (List JValue) :=
  match v with
  | .arr xs => .ok xs
  | .str s => .ok (s.data.map (fun c => .str (String.singleton c)))
  | .obj fs => .ok (fs.map (fun p => JValue.str p.1))
  | _ => .error ("\x27" ++ pyTypeShortName v ++ "\x27 object is not iterable")

/-- Left-to-right formatting of all search result elements, stopping at the
first exception like the for loop of server.py lines 67-74. -/
def format_results (format_one : JValue → Except String JValue) :
    List JValue → Except String (List JValue)
  | [] => .ok []
  | r :: rs =>
    match format_one r with
    | .error e => .error e
    | .ok item =>
      match format_results format_one rs with
      | .error e => .error e
      | .ok items => .ok (item :: items)

/-- Formatting of one search result element, server.py lines 67-74; a
non-dict element raises AttributeError at result.get. -/
def format_result_item (r : JValue) : Except String JValue :=
  match r with
  | .obj rf =>
    .ok (.obj [("type", .str "result"),
      ("title", (jget rf "title").getD (.str "")),
      ("url", (jget rf "url").getD (.str "")),
      ("content", (jget rf "content").getD (.str "")),
      ("score", (jget rf "score").getD (.num 0))])
  | v => .error (pyNoGetAttrMsg v)

/-- Model of the tavily_search tool function (server.py lines 18-86),
returning the result list together with the TavilyClient.search call made,
when one was made. -/
def tavily_search (env : ServerEnv) (query : JValue) (max_results : Int)
    (search_depth : String) : List JValue × Option SearchCall :=
  match query with
  | .str q =>
    if pyStripEmpty q then
      ([errObj "Query parameter is required and must be a non-empty string"], none)
    else
      let max_results := clamp_max_results max_results
      let search_depth := normalize_search_depth search_depth
      match env.tavilyApiKey with
      | none =>
        ([errObj "Configuration error: TAVILY_API_KEY environment variable is required"], none)
      | some _ =>
        let call : SearchCall := ⟨q, max_results, search_depth⟩
        match env.search q max_results search_depth with
        | .tavilyError e => ([errObj ("Search failed: " ++ e)], some call)
        | .otherError e => ([errObj ("Unexpected error: " ++ e)], some call)
        | .ok results =>
          match results with
          | .obj fs =>
            let answer := (jget fs "answer").getD .null
            let answerItems : List JValue :=
              if truthy answer then
                [.obj [("type", .str "answer"), ("content", answer), ("query", .str q)]]
              else []
            match iter_results ((jget fs "results").getD (.arr [])) with
            | .error e => ([errObj ("Unexpected error: " ++ e)], some call)
            | .ok elems =>
              match format_results format_result_item elems with
              | .ok items => (answerItems ++ items, some call)
              | .error e => ([errObj ("Unexpected error: " ++ e)], some call)
          | v => ([errObj ("Unexpected error: " ++ pyNoGetAttrMsg v)], some call)
  | _ => ([errObj "Query parameter is required and must be a non-empty string"], none)

/-- Does a run of tavily_search take one of its exception or input-error
paths rather than the normal return?  Mirrors the control flow of
tavily_search. -/
def tavily_run_fails (env : ServerEnv) (query : JValue) (max_results : Int)
    (search_depth : String) : Bool :=
  match query with
  | .str q =>
    if pyStripEmpty q then true
    else
      match env.tavilyApiKey with
      | none => true
      | some _ =>
        match env.search q (clamp_max_results max_results) (normalize_search_depth search_depth) with
        | .tavilyError _ => true
        | .otherError _ => true
        | .ok results =>
          match results with
          | .obj fs =>
            match iter_results ((jget fs "results").getD (.arr [])) with
            | .error _ => true
            | .ok elems =>
              match format_results format_result_item elems with
              | .ok _ => false
              | .error _ => true
          | _ => true
  | _ => true

/-- Decidable substring test: does hay contain needle? -/
def charsContain (needle : List Char) : List Char → Bool
  | [] => needle.isEmpty
  | c :: rest => needle.isPrefixOf (c :: rest) || charsContain needle rest

/-- String containment test used to examine the produced messages. -/
def strContainsB (hay needle : String) : Bool :=
  charsContain needle.data hay.data

/-- Is a value a dict, as tested by isinstance(v, dict)? -/
def isObjVal : JValue → Bool
  | .obj _ => true
  | _ => false

/-- Does an event record an OpenAI completion call? -/
def isOracleEvent : Event → Bool
  | .oracleSelect => true
  | .oracleGeneral => true
  | .oracleSummarize => true
  | _ => false

/-- Raw tool mirroring the registration of tavily_search on the server. -/
def sampleRawTool : RawTool :=
  ⟨"tavily_search", "Performs web searches", .val (.obj [("type", .str "object")]), .absent⟩

/-- Argument object of the sample selection. -/
def sampleArgsFields : List (String × JValue) := [("query", .str "capitals")]

/-- Fields of the sample tool selection returned by the oracle. -/
def sampleSelectionFields : List (String × JValue) :=
  [("tool_name", .str "tavily_search"), ("arguments", .obj sampleArgsFields)]

/-- Content item with a text attribute, as returned by a text tool. -/
def sampleItem : ContentItem := ⟨some "AI news summary...", none, none, ""⟩

/-- Environment of one fully successful turn. -/
def sampleEnv : Env where
  user_query := "search for recent AI news"
  listTools := .ok [sampleRawTool]
  selectionOracle := .ok "selection"
  parseSelection := fun _ => some (.obj sampleSelectionFields)
  callTool := fun _ _ => .ok [sampleItem]
  generalOracle := fun _ => .ok "general answer"
  summarizeOracle := fun _ => .ok "Here is what I found."

/-- Environment whose call_tool transport raises. -/
def envInvokeError : Env := { sampleEnv with callTool := fun _ _ => .error "boom" }

/-- Environment whose list_tools transport raises. -/
def envListError : Env := { sampleEnv with listTools := .error "connection refused" }

/-- Environment whose list_tools call yields no tools. -/
def envListEmpty : Env := { sampleEnv with listTools := .ok [] }

/-- Environment whose selection oracle answers with invalid JSON. -/
def envParseFail : Env :=
  { sampleEnv with selectionOracle := .ok "not json", parseSelection := fun _ => none }

/-- Environment whose selection carries a string instead of an argument object. -/
def envBadArgs : Env :=
  { sampleEnv with parseSelection :=
      (fun _ => some (.obj [("tool_name", .str "x"), ("arguments", .str "not-an-object")])) }

/-- Environment whose selection names no tool. -/
def envNoToolNull : Env :=
  { sampleEnv with parseSelection :=
      (fun _ => some (.obj [("tool_name", .null), ("arguments", .obj [])])) }

/-- Environment whose selection names the empty-string tool. -/
def envNoToolEmptyStr : Env :=
  { sampleEnv with parseSelection :=
      (fun _ => some (.obj [("tool_name", .str ""), ("arguments", .obj [])])) }

/-- Environment whose summarization oracle call fails. -/
def envNarrationFail : Env :=
  { sampleEnv with summarizeOracle := fun _ => .error "rate limited" }

/-- Server environment with a configured key and a successful search. -/
def sampleServerEnv : ServerEnv where
  tavilyApiKey := some "key"
  search := fun _ _ _ => .ok (.obj [("answer", .str "Paris"), ("results", .arr [])])

/-- Server environment missing the TAVILY_API_KEY variable. -/
def serverEnvNoKey : ServerEnv := { sampleServerEnv with tavilyApiKey := none }

/-- Server environment whose Tavily client raises a TavilySearchError. -/
def serverEnvNetFail : ServerEnv :=
  { sampleServerEnv with search := fun _ _ _ => .tavilyError "HTTP 500" }

theorem charsContain_append (p n : List Char) : charsContain n (p ++ n) = true := by
  induction p with
  | nil =>
    cases n with
    | nil => rfl
    | cons c rest =>
      show (List.isPrefixOf (c :: rest) (c :: rest) || charsContain (c :: rest) rest) = true
      simp
  | cons c p ih =>
    show (List.isPrefixOf n (c :: (p ++ n)) || charsContain n (p ++ n)) = true
    simp [ih]

theorem strContainsB_append_right (p s : String) : strContainsB (p ++ s) s = true := by
  show charsContain s.data (p ++ s).data = true
  rw [String.data_append]
  exact charsContain_append p.data s.data

/-- C1: for every successful tool invocation, the normalized result string
is the sentinel for an empty content list, the first item's text verbatim
when the first item has a text attribute, a placeholder naming the declared
type of the binary data when the first item has a data attribute instead,
and otherwise the JSON serialization of the best-effort object views of
every item of the list. -/
theorem C1_result_normalization :
    (normalize_tool_result [] = "Tool executed successfully but returned no content.") ∧
    (∀ (first : ContentItem) (rest : List ContentItem) (t : String),
      first.text = some t → normalize_tool_result (first :: rest) = t) ∧
    (∀ (first : ContentItem) (rest : List ContentItem) (b : BinaryData),
      first.text = none → first.data = some b →
      normalize_tool_result (first :: rest) =
        "[Binary data received, type: " ++ b.typeRepr ++ "]") ∧
    (∀ (first : ContentItem) (rest : List ContentItem),
      first.text = none → first.data = none →
      normalize_tool_result (first :: rest) =
        json_dumps (.arr ((first :: rest).map item_view))) := by
  refine ⟨rfl, ?_, ?_, ?_⟩
  · intro first rest t ht
    simp [normalize_tool_result, ht]
  · intro first rest b ht hd
    simp [normalize_tool_result, ht, hd]
  · intro first rest ht hd
    simp [normalize_tool_result, ht, hd]

theorem C1_result_normalization_witness :
    normalize_tool_result [] = "Tool executed successfully but returned no content." ∧
    normalize_tool_result [⟨some "AI news summary...", none, none, ""⟩] = "AI news summary..." ∧
    normalize_tool_result [⟨none, some ⟨"<class \x27bytes\x27>"⟩, none, ""⟩] =
      "[Binary data received, type: <class \x27bytes\x27>]" ∧
    normalize_tool_result
      [⟨none, none, some [("a", JValue.num 1)], ""⟩, ⟨none, none, none, "x"⟩] =
      "[\x7b\"a\": 1\x7d, \"x\"]" :=
  ⟨C1_result_normalization.1,
   C1_result_normalization.2.1 _ [] _ rfl,
   (C1_result_normalization.2.2.1 ⟨none, some ⟨"<class \x27bytes\x27>"⟩, none, ""⟩ []
      ⟨"<class \x27bytes\x27>"⟩ rfl rfl).trans rfl,
   (C1_result_normalization.2.2.2
      ⟨none, none, some [("a", JValue.num 1)], ""⟩ [⟨none, none, none, "x"⟩]
      rfl rfl).trans (by decide)⟩

/-- C2 counterexample: with the transport raising "boom" on call_tool for
tool tavily_search with arguments containing the string "capitals", the
final answer names the tool and the underlying message but mentions the
arguments nowhere, neither as JSON nor as a Python repr, so the answer is
not attributed to the arguments as the claim states. -/
theorem C2_counterexample :
    (process_user_query envInvokeError).1 =
      "Error executing tool \x27tavily_search\x27 on MCP server: boom" ∧
    strContainsB (process_user_query envInvokeError).1 "capitals" = false ∧
    strContainsB (process_user_query envInvokeError).1
      (json_dumps (.obj [("query", .str "capitals")])) = false ∧
    strContainsB (process_user_query envInvokeError).1
      (pyRepr (.obj [("query", .str "capitals")])) = false := by
  refine ⟨rfl, ?_, ?_, ?_⟩ <;> decide

/-- C2 amended: for every turn in which call_tool raises, the final answer
is the single error string naming the specific tool and containing the
underlying error message (the arguments are logged but not included in the
answer), and the narration stage is never invoked for that turn. -/
theorem C2_invocation_error_response (env : Env) (fields : List (String × JValue))
    (tname : JValue) (args : List (String × JValue)) (e : String)
    (hcat : (list_mcp_tools_with_schema env.listTools).isEmpty = false)
    (hparse : env.parseSelection (ask_openai env.selectionOracle) = some (.obj fields))
    (hname : (jget fields "tool_name").getD .null = tname)
    (htruthy : truthy tname = true)
    (hargs : (jget fields "arguments").getD (.obj []) = .obj args)
    (hcall : env.callTool tname (.obj args) = .error e) :
    process_user_query env =
      ("Error executing tool \x27" ++ pyStr tname ++ "\x27 on MCP server: " ++ e,
       [.listToolsCall, .oracleSelect, .toolCall tname (.obj args)]) ∧
    (process_user_query env).2.all (fun ev => !isSummarizeEvent ev) = true := by
  have hmain : process_user_query env =
      ("Error executing tool \x27" ++ pyStr tname ++ "\x27 on MCP server: " ++ e,
       [.listToolsCall, .oracleSelect, .toolCall tname (.obj args)]) := by
    simp [process_user_query, hcat, hparse, hname, htruthy, hargs, hcall]
  exact ⟨hmain, by rw [hmain]; rfl⟩

theorem C2_invocation_error_response_witness :
    process_user_query envInvokeError =
      ("Error executing tool \x27tavily_search\x27 on MCP server: boom",
       [.listToolsCall, .oracleSelect,
        .toolCall (.str "tavily_search") (.obj [("query", .str "capitals")])]) ∧
    (process_user_query envInvokeError).2.all (fun ev => !isSummarizeEvent ev) = true :=
  C2_invocation_error_response envInvokeError sampleSelectionFields
    (.str "tavily_search") sampleArgsFields "boom" rfl rfl rfl rfl rfl rfl

/-- C3: whenever the list_tools transport call raises or yields no tools,
the catalog fetch returns the empty catalog instead of propagating, the
final answer is exactly the fixed error string, and the turn makes no
oracle call and no tool invocation. -/
theorem C3_catalog_unavailable (env : Env)
    (h : (∃ e, env.listTools = .error e) ∨ env.listTools = .ok []) :
    list_mcp_tools_with_schema env.listTools = [] ∧
    process_user_query env =
      ("Error: Could not retrieve tools from the MCP server.", [.listToolsCall]) ∧
    (process_user_query env).2.all
      (fun ev => !(isOracleEvent ev || isToolCallEvent ev)) = true := by
  have hcat : list_mcp_tools_with_schema env.listTools = [] := by
    rcases h with ⟨e, he⟩ | he <;> simp [list_mcp_tools_with_schema, he]
  have hmain : process_user_query env =
      ("Error: Could not retrieve tools from the MCP server.", [.listToolsCall]) := by
    simp [process_user_query, hcat]
  exact ⟨hcat, hmain, by rw [hmain]; rfl⟩

theorem C3_catalog_unavailable_witness :
    (list_mcp_tools_with_schema envListError.listTools = [] ∧
      process_user_query envListError =
        ("Error: Could not retrieve tools from the MCP server.", [.listToolsCall]) ∧
      (process_user_query envListError).2.all
        (fun ev => !(isOracleEvent ev || isToolCallEvent ev)) = true) ∧
    (list_mcp_tools_with_schema envListEmpty.listTools = [] ∧
      process_user_query envListEmpty =
        ("Error: Could not retrieve tools from the MCP server.", [.listToolsCall]) ∧
      (process_user_query envListEmpty).2.all
        (fun ev => !(isOracleEvent ev || isToolCallEvent ev)) = true) :=
  ⟨C3_catalog_unavailable envListError (.inl ⟨"connection refused", rfl⟩),
   C3_catalog_unavailable envListEmpty (.inr rfl)⟩

/-- C4: whenever the selection oracle's text does not parse as JSON, the
final answer is the parse-error message carrying the offending raw text,
the raw text occurs in the answer, and no tool is invoked. -/
theorem C4_selection_parse_error (env : Env)
    (hcat : (list_mcp_tools_with_schema env.listTools).isEmpty = false)
    (hparse : env.parseSelection (ask_openai env.selectionOracle) = none) :
    process_user_query env =
      ("Error: LLM did not provide a valid JSON response for tool selection. LLM response:\n" ++
        ask_openai env.selectionOracle, [.listToolsCall, .oracleSelect]) ∧
    strContainsB (process_user_query env).1 (ask_openai env.selectionOracle) = true ∧
    (process_user_query env).2.all (fun ev => !isToolCallEvent ev) = true := by
  have hmain : process_user_query env =
      ("Error: LLM did not provide a valid JSON response for tool selection. LLM response:\n" ++
        ask_openai env.selectionOracle, [.listToolsCall, .oracleSelect]) := by
    simp [process_user_query, hcat, hparse]
  refine ⟨hmain, ?_, by rw [hmain]; rfl⟩
  rw [hmain]
  exact strContainsB_append_right _ _

theorem C4_selection_parse_error_witness :
    process_user_query envParseFail =
      ("Error: LLM did not provide a valid JSON response for tool selection. LLM response:\nnot json",
       [.listToolsCall, .oracleSelect]) ∧
    strContainsB (process_user_query envParseFail).1 "not json" = true ∧
    (process_user_query envParseFail).2.all (fun ev => !isToolCallEvent ev) = true :=
  C4_selection_parse_error envParseFail rfl rfl

/-- C5: whenever the selection names a non-empty tool name but its
arguments value is not a dict, the final answer is the error string naming
the tool and the received type, and call_tool is never invoked. -/
theorem C5_malformed_arguments (env : Env) (fields : List (String × JValue))
    (s : String) (a : JValue)
    (hcat : (list_mcp_tools_with_schema env.listTools).isEmpty = false)
    (hparse : env.parseSelection (ask_openai env.selectionOracle) = some (.obj fields))
    (hname : jget fields "tool_name" = some (.str s))
    (hs : s ≠ "")
    (hargs : jget fields "arguments" = some a)
    (hnotobj : isObjVal a = false) :
    process_user_query env =
      ("Error: LLM provided arguments in an incorrect format for tool \x27" ++ s ++
        "\x27. Expected a dictionary, got " ++ pyTypeName a ++ ".",
       [.listToolsCall, .oracleSelect]) ∧
    (process_user_query env).2.all (fun ev => !isToolCallEvent ev) = true := by
  have hse : s.isEmpty = false := by
    cases he : s.isEmpty with
    | false => rfl
    | true => exact absurd ((String.isEmpty_iff s).mp he) hs
  have hmain : process_user_query env =
      ("Error: LLM provided arguments in an incorrect format for tool \x27" ++ s ++
        "\x27. Expected a dictionary, got " ++ pyTypeName a ++ ".",
       [.listToolsCall, .oracleSelect]) := by
    cases a with
    | obj fs => simp [isObjVal] at hnotobj
    | null => simp [process_user_query, hcat, hparse, hname, hargs, truthy, hse, pyStr]
    | bool b => simp [process_user_query, hcat, hparse, hname, hargs, truthy, hse, pyStr]
    | num n => simp [process_user_query, hcat, hparse, hname, hargs, truthy, hse, pyStr]
    | str t => simp [process_user_query, hcat, hparse, hname, hargs, truthy, hse, pyStr]
    | arr xs => simp [process_user_query, hcat, hparse, hname, hargs, truthy, hse, pyStr]
  exact ⟨hmain, by rw [hmain]; rfl⟩

theorem C5_malformed_arguments_witness :
    process_user_query envBadArgs =
      ("Error: LLM provided arguments in an incorrect format for tool \x27x\x27. Expected a dictionary, got <class \x27str\x27>.",
       [.listToolsCall, .oracleSelect]) ∧
    (process_user_query envBadArgs).2.all (fun ev => !isToolCallEvent ev) = true :=
  C5_malformed_arguments envBadArgs
    [("tool_name", .str "x"), ("arguments", .str "not-an-object")]
    "x" (.str "not-an-object") rfl rfl rfl (by decide) rfl rfl

/-- C6: whenever the selected tool name is falsy (None as well as the empty
string, which is treated identically), the orchestrator never calls
call_tool and answers with the fallback response carrying the no-tool
marker. -/
theorem C6_no_tool_fallback (env : Env) (fields : List (String × JValue))
    (hcat : (list_mcp_tools_with_schema env.listTools).isEmpty = false)
    (hparse : env.parseSelection (ask_openai env.selectionOracle) = some (.obj fields))
    (hfalsy : truthy ((jget fields "tool_name").getD .null) = false) :
    process_user_query env =
      ("(No specific tool was used by the LLM for your query)\nLLM: " ++
        ask_openai (env.generalOracle (general_answer_prompt env.user_query)),
       [.listToolsCall, .oracleSelect, .oracleGeneral]) ∧
    (process_user_query env).2.all (fun ev => !isToolCallEvent ev) = true := by
  have hmain : process_user_query env =
      ("(No specific tool was used by the LLM for your query)\nLLM: " ++
        ask_openai (env.generalOracle (general_answer_prompt env.user_query)),
       [.listToolsCall, .oracleSelect, .oracleGeneral]) := by
    simp [process_user_query, hcat, hparse, hfalsy]
  exact ⟨hmain, by rw [hmain]; rfl⟩

theorem C6_no_tool_fallback_witness :
    process_user_query envNoToolNull =
      ("(No specific tool was used by the LLM for your query)\nLLM: general answer",
       [.listToolsCall, .oracleSelect, .oracleGeneral]) ∧
    process_user_query envNoToolEmptyStr =
      ("(No specific tool was used by the LLM for your query)\nLLM: general answer",
       [.listToolsCall, .oracleSelect, .oracleGeneral]) ∧
    (process_user_query envNoToolEmptyStr).1 = (process_user_query envNoToolNull).1 := by
  have h1 := C6_no_tool_fallback envNoToolNull
    [("tool_name", .null), ("arguments", .obj [])] rfl rfl rfl
  have h2 := C6_no_tool_fallback envNoToolEmptyStr
    [("tool_name", .str ""), ("arguments", .obj [])] rfl rfl rfl
  exact ⟨h1.1, h2.1, by rw [h1.1, h2.1]; rfl⟩

/-- Raw tool whose inputSchema attribute is present and non-None but not a
dict, while its parameters attribute is a dict. -/
def c7RawTool : RawTool := ⟨"t", "d", .val (.str "oops"), .val (.obj [("a", .num 1)])⟩

/-- C7 counterexample: on a raw tool whose inputSchema is present, non-None
and not an object while its parameters attribute is an object, the code
keeps the empty default and never consults parameters, whereas the claimed
fallback chain would move on to the parameters attribute and use its
object; the two disagree at this input. -/
theorem C7_counterexample :
    extract_schema c7RawTool = .obj [] ∧
    spec_extract_schema c7RawTool = .obj [("a", .num 1)] ∧
    extract_schema c7RawTool ≠ spec_extract_schema c7RawTool := by
  refine ⟨rfl, rfl, ?_⟩
  intro h
  simp [extract_schema, spec_extract_schema, c7RawTool] at h

/-- C7 amended: the normalizer uses a present non-None inputSchema when it
is a dict and otherwise degrades that tool's schema to the empty object
without consulting parameters; only when inputSchema is absent or None is
the parameters attribute consulted, its Pydantic schema or the dict itself
being used and anything else defaulting to the empty object; in particular
a raw tool missing both attributes yields the empty schema, and
normalization of a successfully listed catalog is total. -/
theorem C7_schema_extraction :
    (∀ (n d : String) (fs : List (String × JValue)) (p : ParamsVal),
      extract_schema ⟨n, d, .val (.obj fs), p⟩ = .obj fs) ∧
    (∀ (n d : String) (v : JValue) (p : ParamsVal), isObjVal v = false →
      extract_schema ⟨n, d, .val v, p⟩ = .obj []) ∧
    (∀ (n d : String) (isch : AttrVal) (s : List (String × JValue)),
      isch = .absent ∨ isch = .noneVal →
      extract_schema ⟨n, d, isch, .pydanticClass s⟩ = .obj s) ∧
    (∀ (n d : String) (isch : AttrVal) (fs : List (String × JValue)),
      isch = .absent ∨ isch = .noneVal →
      extract_schema ⟨n, d, isch, .val (.obj fs)⟩ = .obj fs) ∧
    (∀ (n d : String) (isch : AttrVal) (v : JValue),
      isch = .absent ∨ isch = .noneVal → isObjVal v = false →
      extract_schema ⟨n, d, isch, .val v⟩ = .obj []) ∧
    (∀ (n d : String) (isch : AttrVal),
      isch = .absent ∨ isch = .noneVal →
      extract_schema ⟨n, d, isch, .absent⟩ = .obj []) ∧
    (∀ raw_tools : List RawTool,
      list_mcp_tools_with_schema (.ok raw_tools) =
        raw_tools.map (fun t => ⟨t.name, t.description, extract_schema t⟩)) := by
  refine ⟨fun n d fs p => rfl, ?_, ?_, ?_, ?_, ?_, fun raw_tools => rfl⟩
  · intro n d v p hv
    cases v <;> first | rfl | simp [isObjVal] at hv
  · intro n d isch s h
    rcases h with rfl | rfl <;> rfl
  · intro n d isch fs h
    rcases h with rfl | rfl <;> rfl
  · intro n d isch v h hv
    rcases h with rfl | rfl <;> cases v <;> first | rfl | simp [isObjVal] at hv
  · intro n d isch h
    rcases h with rfl | rfl <;> rfl

theorem C7_schema_extraction_witness :
    extract_schema ⟨"t", "d", .val (.obj [("type", .str "object")]), .absent⟩ =
      .obj [("type", .str "object")] ∧
    extract_schema ⟨"t", "d", .val (.str "oops"), .pydanticClass [("a", .num 1)]⟩ = .obj [] ∧
    extract_schema ⟨"t", "d", .absent, .pydanticClass [("a", .num 1)]⟩ = .obj [("a", .num 1)] ∧
    extract_schema ⟨"t", "d", .noneVal, .val (.obj [("b", .num 2)])⟩ = .obj [("b", .num 2)] ∧
    extract_schema ⟨"t", "d", .absent, .val (.str "zz")⟩ = .obj [] ∧
    extract_schema ⟨"t", "d", .absent, .absent⟩ = .obj [] ∧
    list_mcp_tools_with_schema (.ok [sampleRawTool]) =
      [⟨"tavily_search", "Performs web searches", .obj [("type", .str "object")]⟩] :=
  ⟨C7_schema_extraction.1 "t" "d" [("type", .str "object")] .absent,
   C7_schema_extraction.2.1 "t" "d" (.str "oops") (.pydanticClass [("a", .num 1)]) rfl,
   C7_schema_extraction.2.2.1 "t" "d" .absent [("a", .num 1)] (.inl rfl),
   C7_schema_extraction.2.2.2.1 "t" "d" .noneVal [("b", .num 2)] (.inr rfl),
   C7_schema_extraction.2.2.2.2.1 "t" "d" .absent (.str "zz") (.inl rfl) rfl,
   C7_schema_extraction.2.2.2.2.2.1 "t" "d" .absent (.inl rfl),
   (C7_schema_extraction.2.2.2.2.2.2 [sampleRawTool]).trans rfl⟩

/-- C8: a turn that reaches the narration stage answers with exactly what
ask_openai returns for the summarization prompt built from the query, the
selection, and the normalized tool output; ask_openai converts an oracle
failure into an inline error string instead of propagating it, so narration
always yields a string. -/
theorem C8_narration_total (env : Env) (fields : List (String × JValue))
    (tname : JValue) (args : List (String × JValue)) (items : List ContentItem)
    (hcat : (list_mcp_tools_with_schema env.listTools).isEmpty = false)
    (hparse : env.parseSelection (ask_openai env.selectionOracle) = some (.obj fields))
    (hname : (jget fields "tool_name").getD .null = tname)
    (htruthy : truthy tname = true)
    (hargs : (jget fields "arguments").getD (.obj []) = .obj args)
    (hcall : env.callTool tname (.obj args) = .ok items) :
    (process_user_query env).1 =
      ask_openai (env.summarizeOracle
        (user_prompt_summarize env.user_query tname (.obj args)
          (normalize_tool_result items))) ∧
    (∀ e, env.summarizeOracle
        (user_prompt_summarize env.user_query tname (.obj args)
          (normalize_tool_result items)) = .error e →
      (process_user_query env).1 = "Error: Could not contact OpenAI - " ++ e) ∧
    (∀ (outcome : Except String String) (e : String),
      outcome = .error e → ask_openai outcome = "Error: Could not contact OpenAI - " ++ e) := by
  have hmain : (process_user_query env).1 =
      ask_openai (env.summarizeOracle
        (user_prompt_summarize env.user_query tname (.obj args)
          (normalize_tool_result items))) := by
    simp [process_user_query, hcat, hparse, hname, htruthy, hargs, hcall]
  refine ⟨hmain, ?_, ?_⟩
  · intro e he
    rw [hmain, he]
    rfl
  · intro outcome e he
    rw [he]
    rfl

theorem C8_narration_total_witness :
    (process_user_query envNarrationFail).1 =
      "Error: Could not contact OpenAI - rate limited" := by
  have h := C8_narration_total envNarrationFail sampleSelectionFields
    (.str "tavily_search") sampleArgsFields [sampleItem] rfl rfl rfl rfl rfl rfl
  exact h.2.1 "rate limited" rfl

/-- C9: max_results is clamped into the interval from 1 to 20 and an
unknown search_depth becomes basic, both inside the tavily_search tool
whose TavilyClient.search call always receives the clamped and defaulted
values, while the core pipeline passes the selected arguments to call_tool
unmodified. -/
theorem C9_search_boundary_clamping :
    (∀ n : Int, (n < 1 → clamp_max_results n = 1) ∧ (20 < n → clamp_max_results n = 20) ∧
      (1 ≤ n → n ≤ 20 → clamp_max_results n = n)) ∧
    (∀ d : String, (d ≠ "basic" → d ≠ "advanced" → normalize_search_depth d = "basic") ∧
      normalize_search_depth "basic" = "basic" ∧
      normalize_search_depth "advanced" = "advanced") ∧
    (∀ (env : ServerEnv) (q : String) (n : Int) (d k : String),
      pyStripEmpty q = false → env.tavilyApiKey = some k →
      (tavily_search env (.str q) n d).2 =
        some ⟨q, clamp_max_results n, normalize_search_depth d⟩) ∧
    (∀ (env : Env) (fields : List (String × JValue)) (tname : JValue)
      (args : List (String × JValue)) (items : List ContentItem),
      (list_mcp_tools_with_schema env.listTools).isEmpty = false →
      env.parseSelection (ask_openai env.selectionOracle) = some (.obj fields) →
      (jget fields "tool_name").getD .null = tname →
      truthy tname = true →
      (jget fields "arguments").getD (.obj []) = .obj args →
      env.callTool tname (.obj args) = .ok items →
      (process_user_query env).2 =
        [.listToolsCall, .oracleSelect, .toolCall tname (.obj args), .oracleSummarize]) := by
  refine ⟨?_, ?_, ?_, ?_⟩
  · intro n
    refine ⟨?_, ?_, ?_⟩ <;>
      (intro h
       try intro h2) <;>
      (simp only [clamp_max_results, max_def, min_def]
       split_ifs <;> omega)
  · intro d
    refine ⟨?_, rfl, rfl⟩
    intro h1 h2
    simp [normalize_search_depth, h1, h2]
  · intro env q n d k hq hk
    cases hs : env.search q (clamp_max_results n) (normalize_search_depth d) with
    | tavilyError e => simp [tavily_search, hq, hk, hs]
    | otherError e => simp [tavily_search, hq, hk, hs]
    | ok v =>
      cases v with
      | obj fs =>
        cases hi : iter_results ((jget fs "results").getD (.arr [])) with
        | error e => simp [tavily_search, hq, hk, hs, hi]
        | ok elems =>
          cases hm : format_results format_result_item elems with
          | error e => simp [tavily_search, hq, hk, hs, hi, hm]
          | ok items => simp [tavily_search, hq, hk, hs, hi, hm]
      | null => simp [tavily_search, hq, hk, hs]
      | bool b => simp [tavily_search, hq, hk, hs]
      | num m => simp [tavily_search, hq, hk, hs]
      | str t => simp [tavily_search, hq, hk, hs]
      | arr xs => simp [tavily_search, hq, hk, hs]
  · intro env fields tname args items hcat hparse hname htruthy hargs hcall
    simp [process_user_query, hcat, hparse, hname, htruthy, hargs, hcall]

theorem C9_search_boundary_clamping_witness :
    clamp_max_results 0 = 1 ∧ clamp_max_results 25 = 20 ∧ clamp_max_results 5 = 5 ∧
    normalize_search_depth "deep" = "basic" ∧
    (tavily_search sampleServerEnv (.str "capital of France") 25 "deep").2 =
      some ⟨"capital of France", 20, "basic"⟩ ∧
    (process_user_query sampleEnv).2 =
      [.listToolsCall, .oracleSelect,
       .toolCall (.str "tavily_search") (.obj [("query", .str "capitals")]),
       .oracleSummarize] :=
  ⟨(C9_search_boundary_clamping.1 0).1 (by decide),
   (C9_search_boundary_clamping.1 25).2.1 (by decide),
   (C9_search_boundary_clamping.1 5).2.2 (by decide) (by decide),
   (C9_search_boundary_clamping.2.1 "deep").1 (by decide) (by decide),
   (C9_search_boundary_clamping.2.2.1 sampleServerEnv "capital of France" 25 "deep" "key"
     rfl rfl).trans rfl,
   C9_search_boundary_clamping.2.2.2 sampleEnv sampleSelectionFields
     (.str "tavily_search") sampleArgsFields [sampleItem] rfl rfl rfl rfl rfl rfl⟩

/-- C10: tavily_search is a total function of its inputs and environment,
and on every one of its failure paths, comprising a non-string or blank
query, a missing API key, a TavilySearchError, any other search exception,
and every exception raised while formatting the response, it returns the
one-element list holding a single object with an error key describing the
failure. -/
theorem C10_tavily_search_never_raises (env : ServerEnv) (query : JValue)
    (max_results : Int) (search_depth : String)
    (h : tavily_run_fails env query max_results search_depth = true) :
    ∃ msg, (tavily_search env query max_results search_depth).1 = [errObj msg] := by
  cases query with
  | null =>
    exact ⟨"Query parameter is required and must be a non-empty string",
      by simp [tavily_search]⟩
  | bool b =>
    exact ⟨"Query parameter is required and must be a non-empty string",
      by simp [tavily_search]⟩
  | num m =>
    exact ⟨"Query parameter is required and must be a non-empty string",
      by simp [tavily_search]⟩
  | arr xs =>
    exact ⟨"Query parameter is required and must be a non-empty string",
      by simp [tavily_search]⟩
  | obj fs =>
    exact ⟨"Query parameter is required and must be a non-empty string",
      by simp [tavily_search]⟩
  | str q =>
    cases hq : pyStripEmpty q with
    | true =>
      exact ⟨"Query parameter is required and must be a non-empty string",
        by simp [tavily_search, hq]⟩
    | false =>
      cases hk : env.tavilyApiKey with
      | none =>
        exact ⟨"Configuration error: TAVILY_API_KEY environment variable is required",
          by simp [tavily_search, hq, hk]⟩
      | some k =>
        cases hs : env.search q (clamp_max_results max_results)
            (normalize_search_depth search_depth) with
        | tavilyError e =>
          exact ⟨"Search failed: " ++ e, by simp [tavily_search, hq, hk, hs]⟩
        | otherError e =>
          exact ⟨"Unexpected error: " ++ e, by simp [tavily_search, hq, hk, hs]⟩
        | ok v =>
          cases v with
          | null =>
            exact ⟨"Unexpected error: " ++ pyNoGetAttrMsg .null,
              by simp [tavily_search, hq, hk, hs]⟩
          | bool b =>
            exact ⟨"Unexpected error: " ++ pyNoGetAttrMsg (.bool b),
              by simp [tavily_search, hq, hk, hs]⟩
          | num m =>
            exact ⟨"Unexpected error: " ++ pyNoGetAttrMsg (.num m),
              by simp [tavily_search, hq, hk, hs]⟩
          | str t =>
            exact ⟨"Unexpected error: " ++ pyNoGetAttrMsg (.str t),
              by simp [tavily_search, hq, hk, hs]⟩
          | arr xs =>
            exact ⟨"Unexpected error: " ++ pyNoGetAttrMsg (.arr xs),
              by simp [tavily_search, hq, hk, hs]⟩
          | obj fs =>
            cases hi : iter_results ((jget fs "results").getD (.arr [])) with
            | error e =>
              exact ⟨"Unexpected error: " ++ e, by simp [tavily_search, hq, hk, hs, hi]⟩
            | ok elems =>
              cases hm : format_results format_result_item elems with
              | error e =>
                exact ⟨"Unexpected error: " ++ e,
                  by simp [tavily_search, hq, hk, hs, hi, hm]⟩
              | ok items =>
                exfalso
                simp [tavily_run_fails, hq, hk, hs, hi, hm] at h

theorem C10_tavily_search_never_raises_witness :
    tavily_run_fails serverEnvNoKey (.str "capital of France") 5 "basic" = true ∧
    (∃ msg, (tavily_search serverEnvNoKey (.str "capital of France") 5 "basic").1 =
      [errObj msg]) ∧
    tavily_run_fails serverEnvNetFail (.str "capital of France") 5 "basic" = true ∧
    (∃ msg, (tavily_search serverEnvNetFail (.str "capital of France") 5 "basic").1 =
      [errObj msg]) :=
  ⟨rfl,
   C10_tavily_search_never_raises serverEnvNoKey (.str "capital of France") 5 "basic" rfl,
   rfl,
   C10_tavily_search_never_raises serverEnvNetFail (.str "capital of France") 5 "basic" rfl⟩

end McpDemo
